import Mathlib

/-!
Shallow embedding of the physics-informed layers of pinn
(src/pinn/layers/physics.py): StressIntensityRange, ParisLaw and SNCurve.
Tensors are modelled as nested lists of real numbers, tagged with their rank;
TensorFlow errors (ValueError, slicing errors, reshape errors) are modelled
as Except.error with a message.
-/

set_option autoImplicit false
set_option linter.unusedVariables false

/-- Tensors of rank 1, 2 or 3, the ranks the claims exercise.  A rank-2
tensor is a list of rows; TensorFlow tensors are rectangular, which the
theorems enforce through explicit row-length hypotheses where needed. -/
inductive Tensor where
  | rank1 (data : List ℝ)
  | rank2 (data : List (List ℝ))
  | rank3 (data : List (List (List ℝ)))

/-- Number of dimensions of a tensor, as common_shapes.rank reports it. -/
def Tensor.rank : Tensor → Nat
  | .rank1 _ => 1
  | .rank2 _ => 2
  | .rank3 _ => 3

/-- Static shape of a tensor (outer lengths; inner lengths read off the
first row, as the static shape of a rectangular tensor). -/
def Tensor.shape : Tensor → List Nat
  | .rank1 v => [v.length]
  | .rank2 x => [x.length, (x.headD []).length]
  | .rank3 t => [t.length, (t.headD []).length, ((t.headD []).headD []).length]

/-- TensorFlow column slice x[:, j] on a rank-2 tensor: one element per row.
Fails (slicing error) when the column index is out of range for some row. -/
def sliceCol (x : List (List ℝ)) (j : Nat) : Option (List ℝ) :=
  if x.all fun r => j < r.length then some (x.map fun r => r.getD j 0) else none

/-- Construction-time configuration common to the three layers: the
kernel initializer resolved by initializers.get (modelled as the list of
initial values it produces for a given weight size), and the resolved
regularizer and constraint (modelled by name, none when absent). -/
structure LayerConfig where
  kernel_initializer : Nat → List ℝ
  kernel_regularizer : Option String
  kernel_constraint : Option String

/-- A weight as produced by Layer.add_weight: its name, declared shape
(vector length), initial values, and the regularizer, constraint and
trainable flag that add_weight received. -/
structure Weight where
  name : String
  shape : Nat
  values : List ℝ
  regularizer : Option String
  constraint : Option String
  trainable : Bool

/-- The keyword arguments that the three constructors inspect:
input_shape and input_dim (other kwargs are passed through unchanged and
are irrelevant to the claims). -/
structure Kwargs where
  input_shape : Option (List (Option Nat))
  input_dim : Option Nat

/-- Translation of the kwargs normalization at the top of
StressIntensityRange.__init__ (physics.py lines 77-78): when input_dim is
supplied and input_shape is not, input_shape becomes the one-element tuple
(input_dim,) and input_dim is popped from the kwargs. -/
def StressIntensityRange.initKwargs : Kwargs → Kwargs
  | ⟨none, some d⟩ => ⟨some [some d], none⟩
  | kw => kw

/-- Translation of the identical kwargs normalization in
ParisLaw.__init__ (physics.py lines 122-123). -/
def ParisLaw.initKwargs : Kwargs → Kwargs
  | ⟨none, some d⟩ => ⟨some [some d], none⟩
  | kw => kw

/-- Translation of the identical kwargs normalization in
SNCurve.__init__ (physics.py lines 173-174). -/
def SNCurve.initKwargs : Kwargs → Kwargs
  | ⟨none, some d⟩ => ⟨some [some d], none⟩
  | kw => kw

/-- Translation of StressIntensityRange.build (physics.py lines 85-97):
raise ValueError when the last dimension of the input shape is None,
otherwise add a trainable weight of shape [1] with the configured
initializer, regularizer and constraint, and set built = True.  The
result pairs the allocated weight with the built flag; an error allocates
nothing and leaves the flag unset. -/
def StressIntensityRange.build (cfg : LayerConfig) (input_shape : List (Option Nat)) :
    Except String (Weight × Bool) :=
  match input_shape.getLast? with
  | some (some _) =>
      Except.ok (⟨"kernel", 1, cfg.kernel_initializer 1, cfg.kernel_regularizer,
        cfg.kernel_constraint, true⟩, true)
  | some none =>
      Except.error "The last dimension of the inputs to StressIntensityRange should be defined. Found None."
  | none => Except.error "index out of range"

/-- Translation of ParisLaw.build (physics.py lines 129-136): no check on
the input shape at all; add a trainable weight of shape [2] with the
configured initializer only (add_weight is not given the regularizer or
the constraint, so they default to None), and set built = True. -/
def ParisLaw.build (cfg : LayerConfig) (input_shape : List (Option Nat)) :
    Except String (Weight × Bool) :=
  Except.ok (⟨"kernel", 2, cfg.kernel_initializer 2, none, none, true⟩, true)

/-- Translation of SNCurve.build (physics.py lines 180-187), identical in
structure to ParisLaw.build: no input-shape check, weight of shape [2],
initializer only, built = True. -/
def SNCurve.build (cfg : LayerConfig) (input_shape : List (Option Nat)) :
    Except String (Weight × Bool) :=
  Except.ok (⟨"kernel", 2, cfg.kernel_initializer 2, none, none, true⟩, true)

/-- Translation of StressIntensityRange.call (physics.py lines 99-104):
reject inputs whose rank is not 2 (the Python test rank is not 2 on a
small int behaves as rank != 2), then compute
kernel * inputs[:, 1] * sqrt(pi * inputs[:, 0]) elementwise over the two
column slices; the kernel has shape [1] and broadcasts, so the factor is
kernel[0].  The result is rank 1 (shape (batch,)), exactly as the
column slices are. -/
noncomputable def StressIntensityRange.call (kernel : List ℝ) (inputs : Tensor) :
    Except String Tensor :=
  match inputs with
  | .rank2 x =>
      match sliceCol x 1, sliceCol x 0 with
      | some c1, some c0 =>
          Except.ok (.rank1 (List.zipWith
            (fun s a => kernel.getD 0 0 * s * Real.sqrt (Real.pi * a)) c1 c0))
      | _, _ => Except.error "slice index out of range"
  | _ => Except.error "StressIntensityRange only takes rank 2 inputs"

/-- Translation of ParisLaw.call (physics.py lines 138-144): reject
inputs whose rank is not 2, then compute kernel[0] * inputs ** kernel[1]
elementwise over the whole tensor (no column slicing), where ** on real
tensors is real exponentiation. -/
noncomputable def ParisLaw.call (kernel : List ℝ) (inputs : Tensor) :
    Except String Tensor :=
  match inputs with
  | .rank2 x =>
      Except.ok (.rank2 (x.map fun r => r.map fun v =>
        kernel.getD 0 0 * v ^ kernel.getD 1 0))
  | _ => Except.error "ParisLaw only takes rank 2 inputs"

/-- Translation of SNCurve.call (physics.py lines 189-193).  There is no
rank check.  The slice inputs[:, 1] is an error on a rank-1 input (too
many slice indices), selects column 1 of a rank-2 input, and selects
index 1 along axis 1 of a rank-3 input (yielding a rank-2 tensor).  The
formula 1 / 10 ** (kernel[0] * slice + kernel[1]) is applied elementwise;
then, the batch dimension being statically known here, the output is
reshaped to (batch, 1), which fails unless the element count matches. -/
noncomputable def SNCurve.call (kernel : List ℝ) (inputs : Tensor) :
    Except String Tensor :=
  match inputs with
  | .rank1 _ => Except.error "slice index out of range for rank 1 input"
  | .rank2 x =>
      match sliceCol x 1 with
      | some c1 =>
          Except.ok (.rank2 ((c1.map fun s =>
            1 / (10 : ℝ) ^ (kernel.getD 0 0 * s + kernel.getD 1 0)).map fun v => [v]))
      | none => Except.error "slice index out of range"
  | .rank3 t =>
      if t.all fun m => 1 < m.length then
        let out := (t.map fun m => m.getD 1 []).map fun r => r.map fun s =>
          1 / (10 : ℝ) ^ (kernel.getD 0 0 * s + kernel.getD 1 0)
        if out.all fun r => r.length = 1 then
          Except.ok (.rank2 out)
        else Except.error "cannot reshape output to batch by 1"
      else Except.error "slice index out of range"

/-- Translation of StressIntensityRange.compute_output_shape (physics.py
lines 106-108): build the auxiliary shape (None, 1), drop its last entry
and concatenate 1; the input shape argument is never consulted. -/
def StressIntensityRange.compute_output_shape (input_shape : List (Option Nat)) :
    List (Option Nat) :=
  let aux_shape : List (Option Nat) := [none, some 1]
  aux_shape.dropLast ++ [some 1]

/-- Translation of the identical ParisLaw.compute_output_shape
(physics.py lines 146-148). -/
def ParisLaw.compute_output_shape (input_shape : List (Option Nat)) :
    List (Option Nat) :=
  let aux_shape : List (Option Nat) := [none, some 1]
  aux_shape.dropLast ++ [some 1]

/-- Translation of the identical SNCurve.compute_output_shape
(physics.py lines 195-197). -/
def SNCurve.compute_output_shape (input_shape : List (Option Nat)) :
    List (Option Nat) :=
  let aux_shape : List (Option Nat) := [none, some 1]
  aux_shape.dropLast ++ [some 1]

/-- Zipping two maps over the same list is a single map over that list. -/
theorem zipWith_map_same {α β γ δ : Type} (f : β → γ → δ) (g : α → β) (k : α → γ)
    (l : List α) :
    List.zipWith f (l.map g) (l.map k) = l.map fun a => f (g a) (k a) := by
  induction l with
  | nil => rfl
  | cons a t ih => simp [ih]

/-- Claim C1: for every rank-2 input tensor (each row carrying its two
columns) and every value of the scalar parameter F, StressIntensityRange.call
returns F * input[:,1] * sqrt(pi * input[:,0]) computed per batch row; in
particular with F = 1.0 and input [[1.0, 2.0]] the output value is
2.0 * sqrt(pi). -/
theorem claim1_stress_intensity_range_formula (F : ℝ) (x : List (List ℝ))
    (h : ∀ r ∈ x, 2 ≤ r.length) :
    StressIntensityRange.call [F] (Tensor.rank2 x) =
      Except.ok (Tensor.rank1 (x.map fun r =>
        F * r.getD 1 0 * Real.sqrt (Real.pi * r.getD 0 0))) ∧
    StressIntensityRange.call [1] (Tensor.rank2 [[1, 2]]) =
      Except.ok (Tensor.rank1 [2 * Real.sqrt Real.pi]) := by
  constructor
  · have h1 : (x.all fun r => 1 < r.length) = true := by
      simp only [List.all_eq_true, decide_eq_true_eq]
      intro r hr
      exact Nat.lt_of_lt_of_le Nat.one_lt_two (h r hr)
    have h0 : (x.all fun r => 0 < r.length) = true := by
      simp only [List.all_eq_true, decide_eq_true_eq]
      intro r hr
      exact Nat.lt_of_lt_of_le Nat.zero_lt_two (h r hr)
    simp [StressIntensityRange.call, sliceCol, h1, h0, zipWith_map_same]
  · simp [StressIntensityRange.call, sliceCol]

/-- Witness for claim C1: the theorem applied at F = 1 and input
[[1.0, 2.0]], with the row-length hypothesis discharged. -/
theorem claim1_stress_intensity_range_formula_witness :
    StressIntensityRange.call [1] (Tensor.rank2 [[1, 2]]) =
      Except.ok (Tensor.rank1 [2 * Real.sqrt Real.pi]) :=
  (claim1_stress_intensity_range_formula 1 [[1, 2]] (by
    intro r hr
    simp only [List.mem_singleton] at hr
    simp [hr])).2

/-- Claim C2: for every rank-2 input tensor and every pair of parameter
values, ParisLaw.call returns C * (input ** m) applied elementwise to the
full input tensor (no column slicing), where C is parameter-vector index 0
and m is index 1; in particular with C = 2.0, m = 3.0 and input [[2.0]]
the output value is 16.0. -/
theorem claim2_paris_law_formula (C m : ℝ) (x : List (List ℝ)) :
    ParisLaw.call [C, m] (Tensor.rank2 x) =
      Except.ok (Tensor.rank2 (x.map fun r => r.map fun v => C * v ^ m)) ∧
    ParisLaw.call [2, 3] (Tensor.rank2 [[2]]) =
      Except.ok (Tensor.rank2 [[16]]) := by
  constructor
  · simp [ParisLaw.call]
  · have h8 : (2 : ℝ) ^ (3 : ℝ) = 8 := by
      rw [show (3 : ℝ) = ((3 : ℕ) : ℝ) by norm_num, Real.rpow_natCast]
      norm_num
    simp [ParisLaw.call, h8]
    norm_num

/-- Claim C3: for every rank-2 input tensor with at least two columns and
every pair of parameter values, SNCurve.call returns
1 / 10 ^ (a * input[:,1] + b) per batch row, where a is parameter-vector
index 0 and b is index 1, and column 0 of the input never affects the
result (the right-hand side reads only column 1); in particular with
a = -0.2, b = 10.0 and input [[0.0, 3.0]] the output value is 1 / 10^9.4. -/
theorem claim3_sn_curve_formula (a b : ℝ) (x : List (List ℝ))
    (h : ∀ r ∈ x, 2 ≤ r.length) :
    SNCurve.call [a, b] (Tensor.rank2 x) =
      Except.ok (Tensor.rank2 (x.map fun r =>
        [1 / (10 : ℝ) ^ (a * r.getD 1 0 + b)])) ∧
    SNCurve.call [-0.2, 10] (Tensor.rank2 [[0, 3]]) =
      Except.ok (Tensor.rank2 [[1 / (10 : ℝ) ^ (9.4 : ℝ)]]) := by
  constructor
  · have h1 : (x.all fun r => 1 < r.length) = true := by
      simp only [List.all_eq_true, decide_eq_true_eq]
      intro r hr
      exact Nat.lt_of_lt_of_le Nat.one_lt_two (h r hr)
    simp [SNCurve.call, sliceCol, h1]
  · simp [SNCurve.call, sliceCol]
    rw [show -(0.2 * 3) + (10 : ℝ) = 9.4 by norm_num]

/-- Witness for claim C3: the theorem applied at a = -0.2, b = 10 and
input [[0.0, 3.0]], with the row-length hypothesis discharged. -/
theorem claim3_sn_curve_formula_witness :
    SNCurve.call [-0.2, 10] (Tensor.rank2 [[0, 3]]) =
      Except.ok (Tensor.rank2 [[1 / (10 : ℝ) ^ (9.4 : ℝ)]]) :=
  (claim3_sn_curve_formula (-0.2) 10 [[0, 3]] (by
    intro r hr
    simp only [List.mem_singleton] at hr
    simp [hr])).2

/-- Claim C4 (code versus its own shape declaration): on the valid rank-2
input [[1.0, 2.0]] with F = 1, StressIntensityRange.call returns a rank-1
tensor (shape (batch,), not (batch, 1)), while the very same layer's
compute_output_shape declares the output shape (None, 1); the claimed
rank-2 (batch_size, 1) output therefore fails on the code. -/
theorem claim4_output_not_rank2 :
    StressIntensityRange.call [1] (Tensor.rank2 [[1, 2]]) =
      Except.ok (Tensor.rank1 [2 * Real.sqrt Real.pi]) ∧
    Tensor.rank (Tensor.rank1 [2 * Real.sqrt Real.pi]) = 1 ∧
    StressIntensityRange.compute_output_shape [some 1, some 2] = [none, some 1] := by
  refine ⟨?_, rfl, rfl⟩
  simp [StressIntensityRange.call, sliceCol]

/-- SNCurve.call performs no rank check: on the rank-3 input
[[[0.0], [3.0]]] with a = -0.2, b = 10 it slices index 1 along axis 1,
applies the formula and reshapes successfully, returning a value rather
than raising. -/
theorem snCurve_accepts_rank3 :
    SNCurve.call [-0.2, 10] (Tensor.rank3 [[[0], [3]]]) =
      Except.ok (Tensor.rank2 [[1 / (10 : ℝ) ^ (9.4 : ℝ)]]) := by
  simp [SNCurve.call]
  rw [show -(0.2 * 3) + (10 : ℝ) = 9.4 by norm_num]

/-- Counterexample to claim C5: SNCurve.call, given a rank-3 input, does
not raise a shape error; it computes and returns a value. -/
theorem claim5_counterexample :
    SNCurve.call [-0.2, 10] (Tensor.rank3 [[[0], [3]]]) =
      Except.ok (Tensor.rank2 [[1 / (10 : ℝ) ^ (9.4 : ℝ)]]) :=
  snCurve_accepts_rank3

/-- Claim C5 as amended: StressIntensityRange.call and ParisLaw.call
raise a shape error on every input whose rank is not 2 and perform no
computation; SNCurve.call has no rank check: it fails on rank-1 inputs
only because the column slice is out of range, and on a rank-3 input it
can compute and return a value. -/
theorem claim5_amended_rank_errors (k : List ℝ) (t : Tensor) (h : t.rank ≠ 2) :
    (∃ e, StressIntensityRange.call k t = Except.error e) ∧
    (∃ e, ParisLaw.call k t = Except.error e) ∧
    (∀ v, t = Tensor.rank1 v → ∃ e, SNCurve.call k t = Except.error e) ∧
    SNCurve.call [-0.2, 10] (Tensor.rank3 [[[0], [3]]]) =
      Except.ok (Tensor.rank2 [[1 / (10 : ℝ) ^ (9.4 : ℝ)]]) := by
  refine ⟨?_, ?_, ?_, snCurve_accepts_rank3⟩
  · cases t with
    | rank1 v => exact ⟨_, rfl⟩
    | rank2 x => exact absurd rfl h
    | rank3 w => exact ⟨_, rfl⟩
  · cases t with
    | rank1 v => exact ⟨_, rfl⟩
    | rank2 x => exact absurd rfl h
    | rank3 w => exact ⟨_, rfl⟩
  · intro v hv
    subst hv
    exact ⟨_, rfl⟩

/-- Witness for the amended claim C5: applied at kernel [1] and the
rank-1 input [1.0, 2.0], whose rank is 1, not 2. -/
theorem claim5_amended_rank_errors_witness :
    (∃ e, StressIntensityRange.call [1] (Tensor.rank1 [1, 2]) = Except.error e) ∧
    (∃ e, ParisLaw.call [1] (Tensor.rank1 [1, 2]) = Except.error e) ∧
    (∀ v, Tensor.rank1 [1, 2] = Tensor.rank1 v →
      ∃ e, SNCurve.call [1] (Tensor.rank1 [1, 2]) = Except.error e) ∧
    SNCurve.call [-0.2, 10] (Tensor.rank3 [[[0], [3]]]) =
      Except.ok (Tensor.rank2 [[1 / (10 : ℝ) ^ (9.4 : ℝ)]]) :=
  claim5_amended_rank_errors [1] (Tensor.rank1 [1, 2]) (by decide)

/-- Claim C9: for every input shape whatsoever, compute_output_shape of
each of the three layers returns exactly the shape (None, 1): the
input-shape argument is ignored entirely and the batch dimension of the
input is not propagated. -/
theorem claim9_compute_output_shape_constant (s : List (Option Nat)) :
    StressIntensityRange.compute_output_shape s = [none, some 1] ∧
    ParisLaw.compute_output_shape s = [none, some 1] ∧
    SNCurve.compute_output_shape s = [none, some 1] :=
  ⟨rfl, rfl, rfl⟩

/-- Claim C10: for every construction of any of the three layers where
input_dim is supplied and input_shape is not, the constructor behaves
exactly as if input_shape = (input_dim,) had been supplied instead, and
input_dim is consumed (not forwarded further). -/
theorem claim10_input_dim_consumed (d : Nat) :
    (StressIntensityRange.initKwargs ⟨none, some d⟩ = ⟨some [some d], none⟩ ∧
     StressIntensityRange.initKwargs ⟨none, some d⟩ =
       StressIntensityRange.initKwargs ⟨some [some d], none⟩) ∧
    (ParisLaw.initKwargs ⟨none, some d⟩ = ⟨some [some d], none⟩ ∧
     ParisLaw.initKwargs ⟨none, some d⟩ =
       ParisLaw.initKwargs ⟨some [some d], none⟩) ∧
    (SNCurve.initKwargs ⟨none, some d⟩ = ⟨some [some d], none⟩ ∧
     SNCurve.initKwargs ⟨none, some d⟩ =
       SNCurve.initKwargs ⟨some [some d], none⟩) :=
  ⟨⟨rfl, rfl⟩, ⟨rfl, rfl⟩, ⟨rfl, rfl⟩⟩

/-- Counterexample to claim C6: ParisLaw.build and SNCurve.build, given
an input shape whose trailing dimension is None, raise no configuration
error at all: each allocates its two-element parameter vector and sets
the built flag, even with a regularizer and a constraint configured. -/
theorem claim6_counterexample :
    ParisLaw.build ⟨fun n => List.replicate n 0, some "l2", some "nonneg"⟩ [none] =
      Except.ok (⟨"kernel", 2, [0, 0], none, none, true⟩, true) ∧
    SNCurve.build ⟨fun n => List.replicate n 0, some "l2", some "nonneg"⟩ [none] =
      Except.ok (⟨"kernel", 2, [0, 0], none, none, true⟩, true) :=
  ⟨rfl, rfl⟩

/-- Claim C6 as amended: only StressIntensityRange.build raises a
configuration error when the trailing dimension of the input shape is
unspecified, allocating nothing and leaving the built flag unset;
ParisLaw.build and SNCurve.build perform no such check and always
succeed. -/
theorem claim6_amended_build_check (cfg : LayerConfig) (shape : List (Option Nat))
    (h : shape.getLast? = some none) :
    StressIntensityRange.build cfg shape =
      Except.error "The last dimension of the inputs to StressIntensityRange should be defined. Found None." ∧
    (ParisLaw.build cfg shape).isOk = true ∧
    (SNCurve.build cfg shape).isOk = true := by
  refine ⟨?_, rfl, rfl⟩
  simp [StressIntensityRange.build, h]

/-- Witness for the amended claim C6: applied at a concrete configuration
and the shape (None,), whose trailing dimension is None. -/
theorem claim6_amended_build_check_witness :
    StressIntensityRange.build ⟨fun n => List.replicate n 0, none, none⟩ [none] =
      Except.error "The last dimension of the inputs to StressIntensityRange should be defined. Found None." ∧
    (ParisLaw.build ⟨fun n => List.replicate n 0, none, none⟩ [none]).isOk = true ∧
    (SNCurve.build ⟨fun n => List.replicate n 0, none, none⟩ [none]).isOk = true :=
  claim6_amended_build_check ⟨fun n => List.replicate n 0, none, none⟩ [none] rfl

/-- Counterexample to claim C7: a ParisLaw layer constructed with a
regularizer and a constraint builds a weight that carries neither — the
build call does not pass them to add_weight — so the regularizer and
constraint supplied at construction are not applied to the parameter
vector. -/
theorem claim7_counterexample :
    ParisLaw.build ⟨fun n => List.replicate n 1, some "l1", some "unitnorm"⟩ [some 1] =
      Except.ok (⟨"kernel", 2, [1, 1], none, none, true⟩, true) ∧
    (none : Option String) ≠ some "l1" :=
  ⟨rfl, by simp⟩

/-- Claim C7 as amended: every valid build allocates a trainable
parameter vector of fixed size (1 for StressIntensityRange, 2 for
ParisLaw and SNCurve) using the initializer supplied at construction;
StressIntensityRange alone also applies the regularizer and constraint
supplied at construction, while ParisLaw and SNCurve leave the
regularizer and constraint of the weight unset. -/
theorem claim7_amended_build_weight (cfg : LayerConfig) (shape : List (Option Nat))
    (d : Nat) (h : shape.getLast? = some (some d)) :
    StressIntensityRange.build cfg shape =
      Except.ok (⟨"kernel", 1, cfg.kernel_initializer 1, cfg.kernel_regularizer,
        cfg.kernel_constraint, true⟩, true) ∧
    ParisLaw.build cfg shape =
      Except.ok (⟨"kernel", 2, cfg.kernel_initializer 2, none, none, true⟩, true) ∧
    SNCurve.build cfg shape =
      Except.ok (⟨"kernel", 2, cfg.kernel_initializer 2, none, none, true⟩, true) := by
  refine ⟨?_, rfl, rfl⟩
  simp [StressIntensityRange.build, h]

/-- Witness for the amended claim C7: applied at a concrete configuration
carrying a regularizer and a constraint and the shape (None, 2). -/
theorem claim7_amended_build_weight_witness :
    StressIntensityRange.build ⟨fun n => List.replicate n 1, some "l1", some "unitnorm"⟩
        [none, some 2] =
      Except.ok (⟨"kernel", 1, [1], some "l1", some "unitnorm", true⟩, true) ∧
    ParisLaw.build ⟨fun n => List.replicate n 1, some "l1", some "unitnorm"⟩
        [none, some 2] =
      Except.ok (⟨"kernel", 2, [1, 1], none, none, true⟩, true) ∧
    SNCurve.build ⟨fun n => List.replicate n 1, some "l1", some "unitnorm"⟩
        [none, some 2] =
      Except.ok (⟨"kernel", 2, [1, 1], none, none, true⟩, true) :=
  claim7_amended_build_weight ⟨fun n => List.replicate n 1, some "l1", some "unitnorm"⟩
    [none, some 2] 2 rfl

/-- Lists related by pointwise equality under p and q give equal List.all
results. -/
theorem forall2_all_eq {α β : Type} (p : α → Bool) (q : β → Bool) (x : List α)
    (y : List β) (h : List.Forall₂ (fun r s => p r = q s) x y) :
    x.all p = y.all q := by
  induction h with
  | nil => rfl
  | cons hp _ ih => simp [List.all_cons, hp, ih]

/-- Lists related by pointwise equality under f and g give equal List.map
results. -/
theorem forall2_map_eq {α β γ : Type} (f : α → γ) (g : β → γ) (x : List α)
    (y : List β) (h : List.Forall₂ (fun r s => f r = g s) x y) :
    x.map f = y.map g := by
  induction h with
  | nil => rfl
  | cons hp _ ih => simp [hp, ih]

/-- Claim C8: for every two rank-2 input tensors of the same shape that
agree on columns 0 and 1, and the same kernel, StressIntensityRange.call
returns equal outputs: columns at index 2 and beyond never influence the
result. -/
theorem claim8_extra_columns_ignored (k : List ℝ) (x y : List (List ℝ))
    (h : List.Forall₂ (fun r s => r.length = s.length ∧
      r.getD 0 0 = s.getD 0 0 ∧ r.getD 1 0 = s.getD 1 0) x y) :
    StressIntensityRange.call k (Tensor.rank2 x) =
      StressIntensityRange.call k (Tensor.rank2 y) := by
  have hall : ∀ j : Nat,
      (x.all fun r => j < r.length) = (y.all fun r => j < r.length) :=
    fun j => forall2_all_eq _ _ x y (h.imp fun a b hp => by simp [hp.1])
  have hmap0 : (x.map fun r => r.getD 0 0) = y.map fun r => r.getD 0 0 :=
    forall2_map_eq _ _ x y (h.imp fun a b hp => hp.2.1)
  have hmap1 : (x.map fun r => r.getD 1 0) = y.map fun r => r.getD 1 0 :=
    forall2_map_eq _ _ x y (h.imp fun a b hp => hp.2.2)
  simp only [StressIntensityRange.call, sliceCol, hall 0, hall 1, hmap0, hmap1]

/-- Witness for claim C8: two one-row inputs agreeing on columns 0 and 1
but differing in column 2 produce the same output. -/
theorem claim8_extra_columns_ignored_witness :
    StressIntensityRange.call [3] (Tensor.rank2 [[1, 2, 5]]) =
      StressIntensityRange.call [3] (Tensor.rank2 [[1, 2, 7]]) :=
  claim8_extra_columns_ignored [3] [[1, 2, 5]] [[1, 2, 7]] (by
    refine List.Forall₂.cons ⟨rfl, ?_, ?_⟩ List.Forall₂.nil <;> simp)
